import Mathlib

/-!
Verification development for the ESocketS event-driven TCP server engine
(`src/ESocketS/socket_server.py`, the mature iteration of the design).

The embedding is shallow: connections are identified by natural numbers
(socket handles), the operating system's behaviour at each socket call is an
explicit input (`NetResult` for one `conn.recv`, a list of per-call byte
counts for `conn.send`), Python exceptions become `Except` values, and the
callback invocations / socket operations a method performs are recorded in an
explicit event trace so that ordering claims can be stated.
-/

namespace ESocketS

/-- Connection identity: the underlying socket handle (spec §3). -/
abbrev Conn := Nat

/-- Observable events of the engine: callback invocations (`on_*` hooks),
socket-level operations and registry operations, in the order the code
performs them. -/
inductive Ev
  | onRecv (conn : Conn) (data : List Nat)
  | onDisconnect (conn : Conn)
  | onAbnormalDisconnect (conn : Conn) (msg : String)
  | onConnect (conn : Conn)
  | onStop (reason : String)
  | sockShutdown (conn : Conn)
  | sockClose (conn : Conn)
  | removeFromRegistry (conn : Conn)
  | clearRegistry
  | setStopSignal
  | waitEvent (name : String)
  | srvShutdown
  | srvClose
  | registered (conn : Conn)
  | dispatched (conn : Conn)
  | dispatchDone (conn : Conn)
  deriving DecidableEq, Repr

/-- Modelled from the spec: the module `ESocketS/exceptions.py` is imported by
`socket_server.py` (line 7) but absent from `src/`. Spec §4.4 and §7 classify
per-operation outcomes into three distinct signals — would-block ("not an
error"), clean disconnect and abnormal disconnect — so the three exception
classes `WouldBlock`, `ClientDisconnect` and `ClientAbnormalDisconnect` are
modelled as three distinct, unrelated signal constructors, each carrying its
message. -/
inductive Sig
  | wouldBlock (msg : String)
  | clientDisconnect (msg : String)
  | clientAbnormalDisconnect (msg : String)
  deriving DecidableEq, Repr

/-- Outcome of one underlying non-blocking `conn.recv(size)` call, supplied by
the operating system: either bytes (possibly zero-length, meaning the peer
closed) or a `socket.error` carrying an errno and its message text. -/
inductive NetResult
  | ok (data : List Nat)
  | err (errnoCode : Nat) (msg : String)
  deriving DecidableEq, Repr

/-- `errno.EAGAIN` on Linux. -/
def EAGAIN : Nat := 11

/-- `errno.EWOULDBLOCK` on Linux (same value as `EAGAIN`). -/
def EWOULDBLOCK : Nat := 11

/-- Identity of a `threading.Lock` object. -/
abbrev LockId := Nat

/-- The callback function stored in a client record. In the admission path the
engine always stores its own `self.recv`; we record which function it is. -/
inductive CallbackFn
  | socketRecv
  deriving DecidableEq, Repr

/-- Embedding of the class `_ClientInfo` (socket_server.py lines 10-16): peer
address, callback function with its fixed arguments, and the send lock the
record exposes. -/
structure ClientInfo where
  address : Nat
  callback_function : CallbackFn
  callback_args : List Conn
  send_lock : LockId
  deriving DecidableEq, Repr

/-- The lock created by the class-body statement `send_lock = threading.Lock()`
(socket_server.py line 11). A class-body statement runs once, when the class is
defined, so exactly one lock object is ever allocated for it; we give it
identity `0`. -/
def ClientInfo.classSendLock : LockId := 0

/-- Embedding of the constructor call `_ClientInfo(address, callback_function,
callback_args)`: `__init__` (lines 13-16) sets `address`, `callback_function`
and `callback_args` on the instance and never assigns `send_lock`, so
attribute lookup of `send_lock` on any instance falls through to the class
attribute — the single lock of `ClientInfo.classSendLock`. -/
def mkClientInfo (address : Nat) (fn : CallbackFn) (args : List Conn) : ClientInfo :=
  { address := address
  , callback_function := fn
  , callback_args := args
  , send_lock := ClientInfo.classSendLock }

namespace Socket

/-- Embedding of the client-record construction performed by the Admission
Stage, `_handle_connects` line 109: `client = _ClientInfo(address, self.recv,
(conn, ))`. -/
def admissionRecord (address : Nat) (conn : Conn) : ClientInfo :=
  mkClientInfo address .socketRecv [conn]

/-- Embedding of `Socket.recv_raw` (socket_server.py lines 151-166): issues
exactly one read — the model consumes exactly one `NetResult` — and classifies
it: `EAGAIN`/`EWOULDBLOCK` socket error raises `WouldBlock`; any other socket
error raises `ClientAbnormalDisconnect` with the formatted error text; an
empty byte string raises `ClientDisconnect`; otherwise the data is returned. -/
def recv_raw (res : NetResult) : Except Sig (List Nat) :=
  match res with
  | .err e msg =>
      if e = EAGAIN ∨ e = EWOULDBLOCK then
        .error (.wouldBlock "Tried to read client socket but no data was available")
      else
        .error (.clientAbnormalDisconnect ("socket.error while receiving: " ++ msg))
  | .ok data =>
      if data = [] then
        .error (.clientDisconnect "Received empty bytes array")
      else
        .ok data

/-- Embedding of `Socket.recv` (socket_server.py lines 256-265), the bound
per-connection receive dispatch. It calls `recv_raw` and handles the result
with `except ClientDisconnect` and `except ClientAbnormalDisconnect` clauses
only: a `ClientDisconnect` fires `on_disconnect`, a `ClientAbnormalDisconnect`
fires `on_abnormal_disconnect` with the message, data fires `on_recv` and is
returned — and a `WouldBlock` is caught by neither clause, so it propagates to
the caller (`Except.error`). The returned pair is (fired callback events,
returned value). -/
def recv (conn : Conn) (res : NetResult) : Except Sig (List Ev × Option (List Nat)) :=
  match recv_raw res with
  | .error (.clientDisconnect _) => .ok ([.onDisconnect conn], none)
  | .error (.clientAbnormalDisconnect m) => .ok ([.onAbnormalDisconnect conn m], none)
  | .error (.wouldBlock m) => .error (.wouldBlock m)
  | .ok data => .ok ([.onRecv conn data], some data)

end Socket

/-- The client registry `Socket.clients`: a mapping from live connection
identity to its client record (socket_server.py line 20). -/
abbrev Registry := List (Conn × ClientInfo)

/-- The shared multiplexer's watch set with the data attached at registration:
for each armed connection, the `(callback_function, callback_args)` pair
stored by `Socket.register` (line 171-172). -/
abbrev EpollMap := List (Conn × CallbackFn × List Conn)

/-- An operation on a lock object. -/
inductive LockOp
  | acquire
  | release
  deriving DecidableEq, Repr

/-- Outcome of the send loop of `Socket.send_raw`: normal completion, the
`ClientAbnormalDisconnect` raise on a zero-byte send, or `starved` when the
modelled list of per-call OS results is exhausted before the data is sent
(the real call would keep looping and issue another `conn.send`). -/
inductive SendOutcome
  | ok
  | abnormalDisconnect (msg : String)
  | starved
  deriving DecidableEq, Repr

namespace Socket

/-- Embedding of the send loop of `send_raw` (socket_server.py lines 141-146):
`to_send, total_sent = len(data), 0`, then while `total_sent < to_send`, call
`sent = conn.send(data[total_sent:])`; raise `ClientAbnormalDisconnect('Sent
empty array')` when `sent == 0`, else `total_sent += sent`. `results` supplies
the byte count each successive `conn.send` reports; a real `conn.send` never
reports more bytes than it was handed, so the count is capped at the bytes
remaining. Returns the outcome and the final `total_sent`. -/
def sendLoop (to_send : Nat) : Nat → List Nat → SendOutcome × Nat
  | total_sent, [] =>
      if total_sent < to_send then (.starved, total_sent) else (.ok, total_sent)
  | total_sent, r :: rest =>
      if total_sent < to_send then
        let sent := min r (to_send - total_sent)
        if sent = 0 then (.abnormalDisconnect "Sent empty array", total_sent)
        else sendLoop to_send (total_sent + sent) rest
      else (.ok, total_sent)

/-- The observable behaviour of one `send_raw` call: loop outcome, final
`total_sent`, the operations performed on the client record's send lock in
order, and the callback invocations the method performs. -/
structure SendRun where
  outcome : SendOutcome
  totalSent : Nat
  lockOps : List (LockId × LockOp)
  events : List Ev
  deriving DecidableEq, Repr

/-- Embedding of `Socket.send_raw` (socket_server.py lines 135-149) on the
client record `client` looked up for the connection (line 136). If `block` is
true, `client.send_lock.acquire()` runs before the `try` and the `finally`
clause runs `client.send_lock.release()` on every exit — normal return and the
`ClientAbnormalDisconnect` raise alike — so the lock-operation trace is
exactly acquire-then-release around the loop. The body contains no
`_call_on_function` call, so no callback fires inside `send_raw`; an abnormal
outcome is raised to the caller, not converted into a callback. -/
def send_raw (client : ClientInfo) (dataLen : Nat) (results : List Nat)
    (block : Bool) : SendRun :=
  let (out, total) := sendLoop dataLen 0 results
  { outcome := out
  , totalSent := total
  , lockOps := if block then [(client.send_lock, .acquire), (client.send_lock, .release)] else []
  , events := [] }

/-- The errors `Socket.register` / `Socket.unregister` can raise: the raw
`KeyError` from the registry lookup `self.clients[conn]`, the
`KeyError('Client already registered')`, and the `KeyError('Client not
registered')`. -/
inductive RegError
  | lookupKeyError
  | alreadyRegistered
  | notRegistered
  deriving DecidableEq, Repr

/-- Embedding of `Socket.register` (socket_server.py lines 168-175). Line 169
`client = self.clients[conn]` runs before, and outside, the `try` block: when
`conn` has no registry entry it raises a `KeyError` that no clause catches,
whatever `silent` is. Inside the `try`, `self._epoll.register(conn,
EVENT_READ, (client.callback_function, client.callback_args))` arms the
connection; the selector raises `KeyError` when the connection is already
armed, which the `except KeyError` clause swallows when `silent` and re-raises
as `KeyError('Client already registered')` otherwise. -/
def register (clients : Registry) (epoll : EpollMap) (conn : Conn)
    (silent : Bool) : Except RegError EpollMap :=
  match clients.lookup conn with
  | none => .error .lookupKeyError
  | some client =>
      if (epoll.lookup conn).isSome then
        if silent then .ok epoll else .error .alreadyRegistered
      else
        .ok ((conn, client.callback_function, client.callback_args) :: epoll)

/-- Embedding of `Socket.unregister` (socket_server.py lines 177-182):
`self._epoll.unregister(conn)` disarms the connection; the selector raises
`KeyError` when it is not armed, swallowed when `silent`, re-raised as
`KeyError('Client not registered')` otherwise. -/
def unregister (epoll : EpollMap) (conn : Conn) (silent : Bool) :
    Except RegError EpollMap :=
  if (epoll.lookup conn).isSome then
    .ok (epoll.filter (fun e => !(e.1 == conn)))
  else
    if silent then .ok epoll else .error .notRegistered

/-- Target of `Socket.disconnect`: the string `'all'` or a single connection. -/
inductive DiscTarget
  | all
  | one (c : Conn)
  deriving DecidableEq, Repr

/-- Embedding of the per-client body of the `disconnect` loop (socket_server.py
lines 218-227): silent unregister (no event, the epoll update is handled by
the caller), then `try: client.shutdown(socket.SHUT_RDWR) except socket.error:
pass` — the attempt happens whether or not the peer already broke the
connection (`broken`), and a raised `socket.error` is swallowed by `pass` —
then `client.close()`, then, unless `silent`, the `on_disconnect` callback
when `normal` or the `on_abnormal_disconnect` callback with `msg` when not. -/
def disconnectClientStep (broken : List Conn) (c : Conn) (normal : Bool)
    (msg : String) (silent : Bool) : List Ev :=
  (match (if c ∈ broken then Except.error () else Except.ok ()) with
   | .ok _ => [.sockShutdown c]
   | .error _ => [.sockShutdown c]) ++
  [.sockClose c] ++
  (if silent then []
   else if normal then [.onDisconnect c]
   else [.onAbnormalDisconnect c msg])

/-- Embedding of `Socket.disconnect` (socket_server.py lines 211-232). The
target list is every registry key for `'all'` and the single connection
otherwise; each target is silently unregistered from the multiplexer, shut
down, closed, and given its callback per `normal`/`silent`; after the loop the
whole registry is cleared (`'all'`) or the one entry deleted. `broken` is the
set of connections whose `shutdown` raises `socket.error` (peer already broke
the connection); the `except ... pass` makes the behaviour independent of it.
For a single target absent from the registry the source's final `del
self.clients[conn]` raises `KeyError`; the claims exercise `disconnect` only
on registry members, where deleting and filtering agree. -/
def disconnect (broken : List Conn) (clients : Registry) (epoll : EpollMap)
    (target : DiscTarget) (normal : Bool) (msg : String) (silent : Bool) :
    List Ev × Registry × EpollMap :=
  let ts : List Conn := match target with
    | .all => clients.map (·.1)
    | .one c => [c]
  let evs := (ts.map (fun c => disconnectClientStep broken c normal msg silent)).flatten
  let epoll' := ts.foldl (fun ep c => ep.filter (fun e => !(e.1 == c))) epoll
  match target with
  | .all => (evs ++ [.clearRegistry], [], epoll')
  | .one c => (evs ++ [.removeFromRegistry c], clients.filter (fun e => !(e.1 == c)), epoll')

/-- Embedding of `Socket.stop` (socket_server.py lines 196-209): raise
`OSError` when the server has not been started; otherwise set `_stop_signal`,
run `self.disconnect('all', silent=True)`, wait on the three stage-completion
events in the insertion order of `_stop_events` (`_recv`, `_accept`,
`_handle_connects`, lines 58-60), shut down and close the listening socket,
and fire `on_stop(reason)`. Returns the event trace, the registry and the
multiplexer map after the call. -/
def stop (started : Bool) (clients : Registry) (epoll : EpollMap)
    (reason : String) : Except String (List Ev × Registry × EpollMap) :=
  if started then
    let (devs, clients', epoll') := disconnect [] clients epoll .all true "" true
    .ok ([.setStopSignal] ++ devs ++
           [.waitEvent "_recv", .waitEvent "_accept", .waitEvent "_handle_connects",
            .srvShutdown, .srvClose, .onStop reason],
         clients', epoll')
  else
    .error "Can't stop server because it has not been started yet"

end Socket

/-! ### Registration/dispatch machine

The three persistent stages and the explicit `register`/`unregister` calls all
mutate the registry and the multiplexer watch set. To state the temporal
claims, these operations are embedded as the steps of a state machine whose
state carries the registry keys, the watch set, the multiset of connections
with a receive dispatch currently in flight, and the emitted event trace. -/

/-- State of the registration/dispatch machine. -/
structure EngState where
  clients : List Conn
  watchset : List Conn
  inflight : List Conn
  trace : List Ev
  deriving DecidableEq, Repr

/-- The operations that touch registry or multiplexer membership. -/
inductive EngAction
  /-- The Admission Stage loop body, `_handle_connects` lines 107-112. -/
  | admission (c : Conn)
  /-- A successful `Socket.register` call, lines 168-175. -/
  | register (c : Conn)
  /-- A successful explicit `Socket.unregister` call, lines 177-182. -/
  | unregister (c : Conn)
  /-- The Dispatch Loop body for one ready connection, `_recv` lines 67-73:
  `self.unregister(key.fileobj)` first, then dispatch of `key.data`. -/
  | notify (c : Conn)
  /-- The dispatched receive callback returns (inline or on its thread). -/
  | finishDispatch (c : Conn)
  deriving DecidableEq, Repr

/-- One machine step. `admit` inserts the connection into the registry and
fires `on_connect` — it does not touch the watch set (no `register` call
appears in `_handle_connects`). `register` requires a registry entry (line
169) and an unarmed connection (the armed case raises, line 173-175) and arms
it. `notify` requires the connection to be ready, hence armed; it disarms it
(`self.unregister`, line 68) and only then dispatches the bound receive
callback, recorded by `.dispatched`. `finishDispatch` retires an in-flight
dispatch. -/
def engStep (s : EngState) : EngAction → Option EngState
  | .admission c =>
      some { s with clients := if c ∈ s.clients then s.clients else c :: s.clients,
                    trace := s.trace ++ [.onConnect c] }
  | .register c =>
      if c ∈ s.clients ∧ c ∉ s.watchset then
        some { s with watchset := c :: s.watchset, trace := s.trace ++ [.registered c] }
      else none
  | .unregister c =>
      if c ∈ s.watchset then
        some { s with watchset := s.watchset.erase c }
      else none
  | .notify c =>
      if c ∈ s.watchset then
        some { s with watchset := s.watchset.erase c,
                      inflight := c :: s.inflight,
                      trace := s.trace ++ [.dispatched c] }
      else none
  | .finishDispatch c =>
      if c ∈ s.inflight then
        some { s with inflight := s.inflight.erase c,
                      trace := s.trace ++ [.dispatchDone c] }
      else none

/-- Run a list of machine actions from a state. -/
def engRun : EngState → List EngAction → Option EngState
  | s, [] => some s
  | s, a :: rest =>
      match engStep s a with
      | some s' => engRun s' rest
      | none => none

/-- The initial state: no clients, empty watch set, nothing in flight. -/
def engInit : EngState := ⟨[], [], [], []⟩

/-- Holds when every `register` action of the list is taken at a moment when
the connection being re-armed has no receive dispatch in flight — the
documented usage, in which the receive callback re-arms its connection only
after it has finished handling the previous notification. -/
def registersWhenIdle : EngState → List EngAction → Bool
  | _, [] => true
  | s, a :: rest =>
      (match a with
       | .register c => s.inflight.count c == 0
       | _ => true) &&
      (match engStep s a with
       | some s' => registersWhenIdle s' rest
       | none => true)

/-! ### Theorems -/

/-- Claim C5: `recv_raw` issues one read (the model consumes exactly one
`NetResult`) and classifies its outcome: a socket error with errno
`EAGAIN`/`EWOULDBLOCK` raises the would-block signal; a zero-length read
raises the clean-disconnect signal; any other socket error raises the
abnormal-disconnect signal carrying the underlying error text; otherwise the
bytes read are returned. -/
theorem recv_raw_classifies :
    (∀ msg, Socket.recv_raw (.err EAGAIN msg) =
        .error (.wouldBlock "Tried to read client socket but no data was available")) ∧
    (∀ msg, Socket.recv_raw (.err EWOULDBLOCK msg) =
        .error (.wouldBlock "Tried to read client socket but no data was available")) ∧
    (∀ e msg, e ≠ EAGAIN → e ≠ EWOULDBLOCK →
        Socket.recv_raw (.err e msg) =
          .error (.clientAbnormalDisconnect ("socket.error while receiving: " ++ msg))) ∧
    (Socket.recv_raw (.ok []) = .error (.clientDisconnect "Received empty bytes array")) ∧
    (∀ b bs, Socket.recv_raw (.ok (b :: bs)) = .ok (b :: bs)) := by
  refine ⟨fun msg => ?_, fun msg => ?_, fun e msg h1 h2 => ?_, ?_, fun b bs => ?_⟩
  · simp [Socket.recv_raw]
  · simp [Socket.recv_raw]
  · simp [Socket.recv_raw, h1, h2]
  · simp [Socket.recv_raw]
  · simp [Socket.recv_raw]

/-- Witness for C5: the abnormal branch at errno 104 (`ECONNRESET`). -/
theorem recv_raw_classifies_witness :
    (104 : Nat) ≠ EAGAIN ∧ (104 : Nat) ≠ EWOULDBLOCK ∧
    Socket.recv_raw (.err 104 "Connection reset by peer") =
      .error (.clientAbnormalDisconnect
        ("socket.error while receiving: " ++ "Connection reset by peer")) :=
  ⟨by decide, by decide,
    recv_raw_classifies.2.2.1 104 "Connection reset by peer" (by decide) (by decide)⟩

/-- Claim C10: when the connection has no entry in the client registry,
`register` raises the raw lookup `KeyError` whatever the value of `silent`:
the lookup `self.clients[conn]` happens before, and outside, the `try` block
whose `except` clause `silent` controls. -/
theorem register_missing_client_raises :
    ∀ (clients : Registry) (epoll : EpollMap) (conn : Conn) (silent : Bool),
      clients.lookup conn = none →
      Socket.register clients epoll conn silent = .error .lookupKeyError := by
  intro clients epoll conn silent h
  simp [Socket.register, h]

/-- Witness for C10: connection 2 is not in a registry holding only
connection 1; `register` errors even with `silent = true`. -/
theorem register_missing_client_raises_witness :
    ([(1, Socket.admissionRecord 5 1)] : Registry).lookup 2 = none ∧
    Socket.register [(1, Socket.admissionRecord 5 1)] [] 2 true =
      .error .lookupKeyError :=
  ⟨by decide,
    register_missing_client_raises [(1, Socket.admissionRecord 5 1)] [] 2 true (by decide)⟩

/-- Claim C9: for a connection in the registry, `register` arms it in the
multiplexer with the callback data stored in its registry record and raises
the duplicate-registration error exactly when it is already armed and `silent`
is false; `unregister` disarms it and raises the not-registered error exactly
when it is not armed and `silent` is false; with `silent` set both calls
succeed whatever the current multiplexer membership. -/
theorem register_unregister_spec :
    ∀ (clients : Registry) (epoll : EpollMap) (conn : Conn) (client : ClientInfo)
      (silent : Bool),
      clients.lookup conn = some client →
      ((epoll.lookup conn = none →
          Socket.register clients epoll conn silent =
            .ok ((conn, client.callback_function, client.callback_args) :: epoll)) ∧
       ((epoll.lookup conn).isSome →
          Socket.register clients epoll conn true = .ok epoll ∧
          Socket.register clients epoll conn false = .error .alreadyRegistered) ∧
       ((epoll.lookup conn).isSome →
          Socket.unregister epoll conn silent =
            .ok (epoll.filter (fun e => !(e.1 == conn)))) ∧
       (epoll.lookup conn = none →
          Socket.unregister epoll conn true = .ok epoll ∧
          Socket.unregister epoll conn false = .error .notRegistered)) := by
  intro clients epoll conn client silent hc
  refine ⟨fun he => ?_, fun he => ?_, fun he => ?_, fun he => ?_⟩
  · simp [Socket.register, hc, he]
  · exact ⟨by simp [Socket.register, hc, he], by simp [Socket.register, hc, he]⟩
  · simp [Socket.unregister, he]
  · exact ⟨by simp [Socket.unregister, he], by simp [Socket.unregister, he]⟩

/-- Witness for C9: concrete registry with connection 3, armed and unarmed
multiplexer maps. -/
theorem register_unregister_spec_witness :
    ([(3, Socket.admissionRecord 9 3)] : Registry).lookup 3 =
        some (Socket.admissionRecord 9 3) ∧
    (([] : EpollMap).lookup 3 = none) ∧
    Socket.register [(3, Socket.admissionRecord 9 3)] [] 3 false =
      .ok [(3, (Socket.admissionRecord 9 3).callback_function,
              (Socket.admissionRecord 9 3).callback_args)] :=
  ⟨by decide, by decide,
    (register_unregister_spec [(3, Socket.admissionRecord 9 3)] [] 3
        (Socket.admissionRecord 9 3) false (by decide)).1 (by decide)⟩

/-- Claim C2 counterexample: the records built by the admission path for the
distinct connections 1 and 2 carry the same send lock, because
`_ClientInfo.send_lock` is a class attribute (socket_server.py line 11)
allocated once for the whole class — so the send locks of two distinct live
connections are not distinct. -/
theorem send_lock_shared_counterexample :
    (1 : Conn) ≠ 2 ∧
    (Socket.admissionRecord 10 1).send_lock = (Socket.admissionRecord 20 2).send_lock :=
  ⟨by decide, rfl⟩

/-- Claim C2 (amended): every client record created at admission carries the
one class-level lock `ClientInfo.classSendLock`, so any two client records —
whatever their connections — share the same send lock, and `send_raw` with
`block = true` acquires and releases that same shared lock for every
connection: blocking sends are serialized across all connections, not per
connection. -/
theorem send_lock_is_class_lock :
    ∀ (a₁ : Nat) (c₁ : Conn) (a₂ : Nat) (c₂ : Conn),
      (Socket.admissionRecord a₁ c₁).send_lock = ClientInfo.classSendLock ∧
      (Socket.admissionRecord a₁ c₁).send_lock = (Socket.admissionRecord a₂ c₂).send_lock ∧
      (∀ (L : Nat) (results : List Nat),
        (Socket.send_raw (Socket.admissionRecord a₁ c₁) L results true).lockOps =
          [(ClientInfo.classSendLock, .acquire), (ClientInfo.classSendLock, .release)]) := by
  intro a₁ c₁ a₂ c₂
  exact ⟨rfl, rfl, fun L results => rfl⟩

/-- Claim C1 counterexample: on a would-block outcome (errno `EAGAIN` = 11)
the receive dispatch `recv` does not complete with no callback and no error —
it propagates the `WouldBlock` exception to its caller, because the `except`
clauses of `recv` (lines 259-262) catch only `ClientDisconnect` and
`ClientAbnormalDisconnect`. -/
theorem recv_would_block_counterexample :
    Socket.recv 0 (.err 11 "unavailable") ≠ Except.ok ([], none) ∧
    Socket.recv 0 (.err 11 "unavailable") =
      .error (.wouldBlock "Tried to read client socket but no data was available") :=
  ⟨by simp [Socket.recv, Socket.recv_raw, EAGAIN],
   by simp [Socket.recv, Socket.recv_raw, EAGAIN]⟩

/-- Claim C1 (amended): on a clean disconnect the dispatch fires the
disconnect callback; on an abnormal disconnect it fires the
abnormal-disconnect callback with the error message; on data it fires the
receive callback with the bytes and returns them — but on a would-block
outcome, although no callback fires, the would-block signal is raised to the
caller instead of being absorbed at the dispatch boundary. -/
theorem recv_dispatch_behavior :
    ∀ (conn : Conn),
      (∀ msg, Socket.recv conn (.err EAGAIN msg) =
          .error (.wouldBlock "Tried to read client socket but no data was available")) ∧
      (Socket.recv conn (.ok []) = .ok ([.onDisconnect conn], none)) ∧
      (∀ e msg, e ≠ EAGAIN → e ≠ EWOULDBLOCK →
          Socket.recv conn (.err e msg) =
            .ok ([.onAbnormalDisconnect conn ("socket.error while receiving: " ++ msg)],
                 none)) ∧
      (∀ b bs, Socket.recv conn (.ok (b :: bs)) =
          .ok ([.onRecv conn (b :: bs)], some (b :: bs))) := by
  intro conn
  refine ⟨fun msg => ?_, ?_, fun e msg h1 h2 => ?_, fun b bs => ?_⟩
  · simp [Socket.recv, Socket.recv_raw]
  · simp [Socket.recv, Socket.recv_raw]
  · simp [Socket.recv, Socket.recv_raw, h1, h2]
  · simp [Socket.recv, Socket.recv_raw]

/-- Witness for C1 (amended): the abnormal branch at errno 104. -/
theorem recv_dispatch_behavior_witness :
    (104 : Nat) ≠ EAGAIN ∧ (104 : Nat) ≠ EWOULDBLOCK ∧
    Socket.recv 7 (.err 104 "reset") =
      .ok ([.onAbnormalDisconnect 7 ("socket.error while receiving: " ++ "reset")],
           none) :=
  ⟨by decide, by decide,
    (recv_dispatch_behavior 7).2.2.1 104 "reset" (by decide) (by decide)⟩

/-- In the send loop, the running total never exceeds `to_send`, and an `ok`
outcome is reached exactly when the total has caught up with `to_send`. -/
theorem sendLoop_ok_total :
    ∀ (results : List Nat) (to_send total : Nat), total ≤ to_send →
      (Socket.sendLoop to_send total results).1 = .ok →
      (Socket.sendLoop to_send total results).2 = to_send := by
  intro results
  induction results with
  | nil =>
      intro to_send total hle hok
      by_cases h : total < to_send
      · simp [Socket.sendLoop, h] at hok
      · simp [Socket.sendLoop, h]
        omega
  | cons r rest ih =>
      intro to_send total hle hok
      by_cases h : total < to_send
      · by_cases hz : min r (to_send - total) = 0
        · simp [Socket.sendLoop, h, hz] at hok
        · simp only [Socket.sendLoop, if_pos h, if_neg hz] at hok ⊢
          exact ih to_send (total + min r (to_send - total)) (by omega) hok
      · simp [Socket.sendLoop, h]
        omega

/-- Claim C6 counterexample: a `conn.send` that transmits zero bytes makes
`send_raw` raise the abnormal-disconnect exception to its caller, but no
abnormal-disconnect callback fires — `send_raw` contains no callback
invocation at all, so the abnormal outcome is not surfaced via the
abnormal-disconnect callback as the claim states. -/
theorem send_zero_no_callback_counterexample :
    (Socket.send_raw (Socket.admissionRecord 0 1) 1 [0] true).outcome =
        .abnormalDisconnect "Sent empty array" ∧
    (Socket.send_raw (Socket.admissionRecord 0 1) 1 [0] true).events = [] :=
  ⟨rfl, rfl⟩

/-- Claim C6 (amended): `send_raw` loops on partial sends and completes with
outcome `ok` only when the total sent equals the length of the data; a
`conn.send` reporting zero bytes makes it raise the abnormal-disconnect
exception `'Sent empty array'` to the caller (no callback fires — the claim's
"surfaced via the abnormal-disconnect callback" does not hold); when `block`
is true the client record's send lock is acquired before the loop and
released on every exit, the abnormal path included. -/
theorem send_raw_behavior :
    ∀ (client : ClientInfo) (L : Nat) (results : List Nat),
      ((Socket.send_raw client L results true).lockOps =
          [(client.send_lock, .acquire), (client.send_lock, .release)]) ∧
      ((Socket.send_raw client L results false).lockOps = []) ∧
      (∀ block, (Socket.send_raw client L results block).events = []) ∧
      ((Socket.send_raw client L results true).outcome = .ok →
          (Socket.send_raw client L results true).totalSent = L) ∧
      (0 < L →
          (Socket.send_raw client L (0 :: results) true).outcome =
            .abnormalDisconnect "Sent empty array") := by
  intro client L results
  refine ⟨rfl, rfl, fun block => by cases block <;> rfl, fun hok => ?_, fun hL => ?_⟩
  · exact sendLoop_ok_total results L 0 (Nat.zero_le L) hok
  · simp [Socket.send_raw, Socket.sendLoop, hL]

/-- Witness for C6 (amended): sending 5 bytes with the OS reporting partial
sends of 3 then 2 completes with all 5 bytes sent; a first send of zero bytes
yields the abnormal outcome; the lock trace brackets both runs. -/
theorem send_raw_behavior_witness :
    (Socket.send_raw (Socket.admissionRecord 4 2) 5 [3, 2] true).outcome = .ok ∧
    (Socket.send_raw (Socket.admissionRecord 4 2) 5 [3, 2] true).totalSent = 5 ∧
    (0 : Nat) < 5 ∧
    (Socket.send_raw (Socket.admissionRecord 4 2) 5 [0, 3, 2] true).outcome =
      .abnormalDisconnect "Sent empty array" :=
  ⟨by decide, (send_raw_behavior (Socket.admissionRecord 4 2) 5 [3, 2]).2.2.2.1 (by decide),
    by decide, (send_raw_behavior (Socket.admissionRecord 4 2) 5 [3, 2]).2.2.2.2 (by decide)⟩

/-- The per-client disconnect step emits the same events whether or not the
peer already broke the connection: the `except socket.error: pass` around
`shutdown` swallows the failure. -/
theorem disconnectClientStep_eq (broken : List Conn) (c : Conn) (normal : Bool)
    (msg : String) (silent : Bool) :
    Socket.disconnectClientStep broken c normal msg silent =
      [Ev.sockShutdown c, Ev.sockClose c] ++
        (if silent then []
         else if normal then [Ev.onDisconnect c]
         else [Ev.onAbnormalDisconnect c msg]) := by
  by_cases hb : c ∈ broken <;> simp [Socket.disconnectClientStep, hb]

/-- Closed form of `disconnect` on a single target. -/
theorem disconnect_one_eq (broken : List Conn) (clients : Registry)
    (epoll : EpollMap) (c : Conn) (normal : Bool) (msg : String) (silent : Bool) :
    Socket.disconnect broken clients epoll (.one c) normal msg silent =
      ([Ev.sockShutdown c, Ev.sockClose c] ++
         (if silent then []
          else if normal then [Ev.onDisconnect c]
          else [Ev.onAbnormalDisconnect c msg]) ++
         [Ev.removeFromRegistry c],
       clients.filter (fun e => !(e.1 == c)),
       epoll.filter (fun e => !(e.1 == c))) := by
  simp [Socket.disconnect, disconnectClientStep_eq]

/-- Closed form of `disconnect` on target `'all'`. -/
theorem disconnect_all_eq (broken : List Conn) (clients : Registry)
    (epoll : EpollMap) (normal : Bool) (msg : String) (silent : Bool) :
    Socket.disconnect broken clients epoll .all normal msg silent =
      ((clients.map (fun e =>
          [Ev.sockShutdown e.1, Ev.sockClose e.1] ++
            (if silent then []
             else if normal then [Ev.onDisconnect e.1]
             else [Ev.onAbnormalDisconnect e.1 msg]))).flatten ++ [Ev.clearRegistry],
       [],
       (clients.map (·.1)).foldl (fun ep d => ep.filter (fun e => !(e.1 == d))) epoll) := by
  have hmap : (clients.map (·.1)).map
        (fun c => Socket.disconnectClientStep broken c normal msg silent) =
      clients.map (fun e =>
        [Ev.sockShutdown e.1, Ev.sockClose e.1] ++
          (if silent then []
           else if normal then [Ev.onDisconnect e.1]
           else [Ev.onAbnormalDisconnect e.1 msg])) := by
    rw [List.map_map]
    exact List.map_congr_left fun e _ =>
      disconnectClientStep_eq broken e.1 normal msg silent
  simp only [Socket.disconnect]
  rw [hmap]

/-- No disconnect callback occurs among the shutdown/close events of a silent
mass disconnect. -/
theorem no_callback_in_shutdown_flatten (clients : Registry) (d : Conn) (m : String) :
    Ev.onDisconnect d ∉
        (clients.map (fun e => [Ev.sockShutdown e.1, Ev.sockClose e.1])).flatten ∧
    Ev.onAbnormalDisconnect d m ∉
        (clients.map (fun e => [Ev.sockShutdown e.1, Ev.sockClose e.1])).flatten := by
  constructor <;>
    · intro h
      rcases List.mem_flatten.mp h with ⟨l, hl, hm⟩
      rcases List.mem_map.mp hl with ⟨e, _, rfl⟩
      simp at hm

/-- Claim C8: for each target of `disconnect` — the single given connection
(assumed in the registry), or every registry entry for `'all'` — the engine
silently removes the connection from the multiplexer, attempts shutdown and
then close (tolerating a broken peer: the result does not depend on which
connections fail their shutdown), then fires the disconnect callback when
`normal` or the abnormal-disconnect callback with `msg` when not, unless
`silent`, and finally removes the connection from the registry. -/
theorem disconnect_behavior :
    ∀ (broken : List Conn) (clients : Registry) (epoll : EpollMap)
      (c : Conn) (normal : Bool) (msg : String) (silent : Bool),
      (clients.lookup c).isSome →
      (Socket.disconnect broken clients epoll (.one c) normal msg silent =
        ([Ev.sockShutdown c, Ev.sockClose c] ++
           (if silent then []
            else if normal then [Ev.onDisconnect c]
            else [Ev.onAbnormalDisconnect c msg]) ++
           [Ev.removeFromRegistry c],
         clients.filter (fun e => !(e.1 == c)),
         epoll.filter (fun e => !(e.1 == c)))) ∧
      (Socket.disconnect broken clients epoll .all normal msg silent =
        ((clients.map (fun e =>
            [Ev.sockShutdown e.1, Ev.sockClose e.1] ++
              (if silent then []
               else if normal then [Ev.onDisconnect e.1]
               else [Ev.onAbnormalDisconnect e.1 msg]))).flatten ++ [Ev.clearRegistry],
         [],
         (clients.map (·.1)).foldl (fun ep d => ep.filter (fun e => !(e.1 == d))) epoll)) ∧
      (Socket.disconnect broken clients epoll (.one c) normal msg silent =
        Socket.disconnect [] clients epoll (.one c) normal msg silent) ∧
      (Socket.disconnect broken clients epoll .all normal msg silent =
        Socket.disconnect [] clients epoll .all normal msg silent) := by
  intro broken clients epoll c normal msg silent _
  refine ⟨disconnect_one_eq .., disconnect_all_eq .., ?_, ?_⟩
  · rw [disconnect_one_eq, disconnect_one_eq]
  · rw [disconnect_all_eq, disconnect_all_eq]

/-- Witness for C8: disconnecting connection 1 (in a two-client registry,
armed in the multiplexer) abnormally with a message. -/
theorem disconnect_behavior_witness :
    (([(1, Socket.admissionRecord 8 1), (2, Socket.admissionRecord 9 2)] :
        Registry).lookup 1).isSome = true ∧
    Socket.disconnect [] [(1, Socket.admissionRecord 8 1), (2, Socket.admissionRecord 9 2)]
        [(1, CallbackFn.socketRecv, [1])] (.one 1) false "lost" false =
      ([Ev.sockShutdown 1, Ev.sockClose 1] ++ [Ev.onAbnormalDisconnect 1 "lost"] ++
         [Ev.removeFromRegistry 1],
       [(2, Socket.admissionRecord 9 2)],
       []) :=
  ⟨by decide,
    ((disconnect_behavior [] [(1, Socket.admissionRecord 8 1), (2, Socket.admissionRecord 9 2)]
        [(1, CallbackFn.socketRecv, [1])] 1 false "lost" false (by decide)).1)⟩

/-- Claim C7: `stop(reason)` raises the usage `OSError` when the server has
not been started; otherwise it sets the global stop flag, force-disconnects
every connection silently (no disconnect or abnormal-disconnect callback
fires and the registry is emptied), waits on the three stage-completion
events, then shuts down and closes the listening socket and fires the stop
callback with `reason` — in that order, as the emitted trace shows. -/
theorem stop_behavior :
    ∀ (clients : Registry) (epoll : EpollMap) (reason : String),
      (Socket.stop false clients epoll reason =
        .error "Can't stop server because it has not been started yet") ∧
      (Socket.stop true clients epoll reason =
        .ok ([Ev.setStopSignal] ++
               ((clients.map (fun e => [Ev.sockShutdown e.1, Ev.sockClose e.1])).flatten ++
                  [Ev.clearRegistry]) ++
               [Ev.waitEvent "_recv", Ev.waitEvent "_accept", Ev.waitEvent "_handle_connects",
                Ev.srvShutdown, Ev.srvClose, Ev.onStop reason],
             [],
             (clients.map (·.1)).foldl (fun ep d => ep.filter (fun e => !(e.1 == d))) epoll)) ∧
      (∀ evs reg ep', Socket.stop true clients epoll reason = .ok (evs, reg, ep') →
         reg = [] ∧ (∀ d, Ev.onDisconnect d ∉ evs) ∧
           (∀ d m, Ev.onAbnormalDisconnect d m ∉ evs)) := by
  intro clients epoll reason
  have hall := disconnect_all_eq [] clients epoll true "" true
  have heq : Socket.stop true clients epoll reason =
      .ok ([Ev.setStopSignal] ++
             ((clients.map (fun e => [Ev.sockShutdown e.1, Ev.sockClose e.1])).flatten ++
                [Ev.clearRegistry]) ++
             [Ev.waitEvent "_recv", Ev.waitEvent "_accept", Ev.waitEvent "_handle_connects",
              Ev.srvShutdown, Ev.srvClose, Ev.onStop reason],
           [],
           (clients.map (·.1)).foldl (fun ep d => ep.filter (fun e => !(e.1 == d))) epoll) := by
    simp only [Socket.stop, if_pos trivial, hall]
    simp
  refine ⟨by simp [Socket.stop], heq, fun evs reg ep' h => ?_⟩
  rw [heq] at h
  injection h with h
  rw [Prod.mk.injEq, Prod.mk.injEq] at h
  obtain ⟨hevs, hreg, -⟩ := h
  subst hevs hreg
  refine ⟨rfl, fun d => ?_, fun d m => ?_⟩
  · intro hmem
    simp only [List.mem_append] at hmem
    rcases hmem with (h | h | h) | h
    · simp at h
    · exact (no_callback_in_shutdown_flatten clients d "").1 h
    · simp at h
    · simp at h
  · intro hmem
    simp only [List.mem_append] at hmem
    rcases hmem with (h | h | h) | h
    · simp at h
    · exact (no_callback_in_shutdown_flatten clients d m).2 h
    · simp at h
    · simp at h

/-- Witness for C7: stopping a started server with one registered client emits
no disconnect callback, and stopping a never-started server errors. -/
theorem stop_behavior_witness :
    Socket.stop false [(1, Socket.admissionRecord 8 1)] [] "bye" =
      .error "Can't stop server because it has not been started yet" ∧
    Ev.onDisconnect 1 ∉
      ([Ev.setStopSignal] ++
         ((([(1, Socket.admissionRecord 8 1)] : Registry).map
             (fun e => [Ev.sockShutdown e.1, Ev.sockClose e.1])).flatten ++
            [Ev.clearRegistry]) ++
         [Ev.waitEvent "_recv", Ev.waitEvent "_accept", Ev.waitEvent "_handle_connects",
          Ev.srvShutdown, Ev.srvClose, Ev.onStop "bye"]) :=
  ⟨(stop_behavior [(1, Socket.admissionRecord 8 1)] [] "bye").1,
    (((stop_behavior [(1, Socket.admissionRecord 8 1)] [] "bye").2.2 _ _ _
        (stop_behavior [(1, Socket.admissionRecord 8 1)] [] "bye").2.1).2.1 1)⟩

/-- One machine step preserves the dispatch-budget invariant: for every
connection, the dispatches emitted so far plus the arming it currently holds
in the watch set never exceed the `register` calls made for it. -/
theorem engStep_count_inv (s s' : EngState) (a : EngAction) (c : Conn)
    (h : engStep s a = some s')
    (hI : s.trace.count (Ev.dispatched c) + s.watchset.count c ≤
            s.trace.count (Ev.registered c)) :
    s'.trace.count (Ev.dispatched c) + s'.watchset.count c ≤
      s'.trace.count (Ev.registered c) := by
  cases a with
  | admission d =>
      simp only [engStep, Option.some.injEq] at h
      subst h
      simpa [List.count_append, List.count_singleton] using hI
  | register d =>
      simp only [engStep] at h
      split at h
      · rename_i hg
        cases h
        by_cases hdc : d = c
        · subst hdc
          simp [List.count_append, List.count_singleton, List.count_cons]
          omega
        · simp [List.count_append, List.count_singleton, List.count_cons,
            beq_iff_eq, hdc]
          omega
      · exact absurd h (by simp)
  | unregister d =>
      simp only [engStep] at h
      split at h
      · cases h
        by_cases hdc : d = c
        · subst hdc
          have := List.count_erase_self d s.watchset
          simp only [this]
          omega
        · rw [List.count_erase_of_ne (fun he => hdc he.symm)]
          exact hI
      · exact absurd h (by simp)
  | notify d =>
      simp only [engStep] at h
      split at h
      · rename_i hg
        cases h
        by_cases hdc : d = c
        · subst hdc
          have hpos : 0 < s.watchset.count d := List.count_pos_iff.mpr hg
          have := List.count_erase_self d s.watchset
          simp [List.count_append, List.count_singleton, this]
          omega
        · rw [List.count_erase_of_ne (fun he => hdc he.symm)]
          simp [List.count_append, List.count_singleton, beq_iff_eq, hdc]
          omega
      · exact absurd h (by simp)
  | finishDispatch d =>
      simp only [engStep] at h
      split at h
      · cases h
        simpa [List.count_append, List.count_singleton] using hI
      · exact absurd h (by simp)

/-- The dispatch-budget invariant holds along any run. -/
theorem engRun_count_inv (acts : List EngAction) (s₀ s : EngState) (c : Conn)
    (h : engRun s₀ acts = some s)
    (hI : s₀.trace.count (Ev.dispatched c) + s₀.watchset.count c ≤
            s₀.trace.count (Ev.registered c)) :
    s.trace.count (Ev.dispatched c) + s.watchset.count c ≤
      s.trace.count (Ev.registered c) := by
  induction acts generalizing s₀ with
  | nil =>
      simp only [engRun, Option.some.injEq] at h
      exact h ▸ hI
  | cons a rest ih =>
      simp only [engRun] at h
      cases hs : engStep s₀ a with
      | none => rw [hs] at h; exact absurd h (by simp)
      | some s₁ =>
          rw [hs] at h
          exact ih s₁ h (engStep_count_inv s₀ s₁ a c hs hI)

/-- One machine step preserves the one-shot invariant — watch set duplicates
never arise, at most one dispatch per connection is in flight, and an armed
connection has none in flight — provided any `register` step re-arms only an
idle connection. -/
theorem engStep_idle_inv (s s' : EngState) (a : EngAction)
    (h : engStep s a = some s')
    (hidle : ∀ c, a = .register c → s.inflight.count c = 0)
    (hN : s.watchset.Nodup)
    (hC : ∀ c, s.inflight.count c ≤ 1 ∧ (c ∈ s.watchset → s.inflight.count c = 0)) :
    s'.watchset.Nodup ∧
      (∀ c, s'.inflight.count c ≤ 1 ∧ (c ∈ s'.watchset → s'.inflight.count c = 0)) := by
  cases a with
  | admission d =>
      simp only [engStep, Option.some.injEq] at h
      subst h
      exact ⟨hN, hC⟩
  | register d =>
      simp only [engStep] at h
      split at h
      · rename_i hg
        cases h
        refine ⟨List.nodup_cons.mpr ⟨hg.2, hN⟩, fun c => ⟨(hC c).1, fun hm => ?_⟩⟩
        rcases List.mem_cons.mp hm with rfl | hm'
        · exact hidle c rfl
        · exact (hC c).2 hm'
      · exact absurd h (by simp)
  | unregister d =>
      simp only [engStep] at h
      split at h
      · cases h
        exact ⟨hN.erase d, fun c =>
          ⟨(hC c).1, fun hm => (hC c).2 (List.mem_of_mem_erase hm)⟩⟩
      · exact absurd h (by simp)
  | notify d =>
      simp only [engStep] at h
      split at h
      · rename_i hg
        cases h
        refine ⟨hN.erase d, fun c => ⟨?_, fun hm => ?_⟩⟩
        · by_cases hdc : d = c
          · subst hdc
            have h0 := (hC d).2 hg
            simp [List.count_cons, h0]
          · have := (hC c).1
            simp [List.count_cons, beq_iff_eq, hdc]
            omega
        · have hcd : c ≠ d := ((hN.mem_erase_iff).mp hm).1
          have hcw : c ∈ s.watchset := ((hN.mem_erase_iff).mp hm).2
          have h0 := (hC c).2 hcw
          simp [List.count_cons, h0, beq_iff_eq]
          exact fun he => hcd he.symm
      · exact absurd h (by simp)
  | finishDispatch d =>
      simp only [engStep] at h
      split at h
      · cases h
        refine ⟨hN, fun c => ⟨?_, fun hm => ?_⟩⟩
        · by_cases hdc : d = c
          · subst hdc
            show List.count d (s.inflight.erase d) ≤ 1
            have := List.count_erase_self d s.inflight
            have h1 := (hC d).1
            omega
          · rw [List.count_erase_of_ne (fun he => hdc he.symm)]
            exact (hC c).1
        · have h0 := (hC c).2 hm
          by_cases hdc : d = c
          · subst hdc
            show List.count d (s.inflight.erase d) = 0
            have := List.count_erase_self d s.inflight
            omega
          · rw [List.count_erase_of_ne (fun he => hdc he.symm)]
            exact h0
      · exact absurd h (by simp)

/-- The one-shot invariant holds along any run whose `register` steps re-arm
only idle connections. -/
theorem engRun_idle_inv (acts : List EngAction) (s₀ s : EngState)
    (h : engRun s₀ acts = some s)
    (hw : registersWhenIdle s₀ acts = true)
    (hN : s₀.watchset.Nodup)
    (hC : ∀ c, s₀.inflight.count c ≤ 1 ∧ (c ∈ s₀.watchset → s₀.inflight.count c = 0)) :
    s.watchset.Nodup ∧
      (∀ c, s.inflight.count c ≤ 1 ∧ (c ∈ s.watchset → s.inflight.count c = 0)) := by
  induction acts generalizing s₀ with
  | nil =>
      simp only [engRun, Option.some.injEq] at h
      exact h ▸ ⟨hN, hC⟩
  | cons a rest ih =>
      simp only [engRun] at h
      cases hs : engStep s₀ a with
      | none => rw [hs] at h; exact absurd h (by simp)
      | some s₁ =>
          rw [hs] at h
          simp only [registersWhenIdle, hs, Bool.and_eq_true] at hw
          have hidle : ∀ c, a = .register c → s₀.inflight.count c = 0 := by
            intro c hac
            subst hac
            simpa using hw.1
          obtain ⟨hN₁, hC₁⟩ := engStep_idle_inv s₀ s₁ a hs hidle hN hC
          exact ih s₁ h hw.2 hN₁ hC₁

/-- Claim C3: in the Dispatch Loop the engine disarms a ready connection from
the multiplexer before dispatching its bound receive callback (the `notify`
step embeds `_recv`'s `self.unregister(key.fileobj)` followed by the
dispatch), so along any run from the initial state whose explicit `register`
calls re-arm only idle connections, at most one receive dispatch per
connection is in flight at any time, and a connection in the watch set has no
receive dispatch running. -/
theorem dispatch_one_shot :
    ∀ (acts : List EngAction) (s : EngState),
      engRun engInit acts = some s →
      registersWhenIdle engInit acts = true →
      ∀ c, s.inflight.count c ≤ 1 ∧ (c ∈ s.watchset → s.inflight.count c = 0) := by
  intro acts s h hw
  exact (engRun_idle_inv acts engInit s h hw (by simp [engInit])
    (fun c => by simp [engInit])).2

/-- Witness for C3: a run that admits, arms, dispatches, completes, re-arms
and dispatches connection 1 again ends with exactly one dispatch in flight and
an empty watch set. -/
theorem dispatch_one_shot_witness :
    engRun engInit
        [.admission 1, .register 1, .notify 1, .finishDispatch 1, .register 1, .notify 1] =
      some ⟨[1], [], [1],
            [.onConnect 1, .registered 1, .dispatched 1, .dispatchDone 1,
             .registered 1, .dispatched 1]⟩ ∧
    registersWhenIdle engInit
        [.admission 1, .register 1, .notify 1, .finishDispatch 1, .register 1, .notify 1] =
      true ∧
    (EngState.inflight ⟨[1], [], [1],
        [.onConnect 1, .registered 1, .dispatched 1, .dispatchDone 1,
         .registered 1, .dispatched 1]⟩).count 1 ≤ 1 :=
  ⟨by decide, by decide,
    (dispatch_one_shot
        [.admission 1, .register 1, .notify 1, .finishDispatch 1, .register 1, .notify 1]
        ⟨[1], [], [1],
         [.onConnect 1, .registered 1, .dispatched 1, .dispatchDone 1,
          .registered 1, .dispatched 1]⟩
        (by decide) (by decide) 1).1⟩

/-- Claim C4: the Admission Stage step inserts the connection into the client
registry and fires the connect callback while leaving the multiplexer watch
set untouched — it never arms the connection — and along any run from the
initial state the receive dispatches for a connection never exceed the
`register` calls made for it, so no receive dispatch fires before `register`
has been called on the connection. -/
theorem admission_no_autoarm :
    (∀ (s : EngState) (c : Conn) (s' : EngState),
        engStep s (.admission c) = some s' →
        s'.watchset = s.watchset ∧ s'.trace = s.trace ++ [Ev.onConnect c] ∧
          c ∈ s'.clients) ∧
    (∀ (acts : List EngAction) (s : EngState) (c : Conn),
        engRun engInit acts = some s →
        s.trace.count (Ev.dispatched c) ≤ s.trace.count (Ev.registered c)) := by
  constructor
  · intro s c s' h
    simp only [engStep, Option.some.injEq] at h
    subst h
    refine ⟨rfl, rfl, ?_⟩
    by_cases hc : c ∈ s.clients <;> simp [hc]
  · intro acts s c h
    have := engRun_count_inv acts engInit s c h (by simp [engInit])
    omega

/-- Witness for C4: admitting connection 3 leaves the watch set empty, and a
run that admits, registers and dispatches connection 1 has its dispatch count
bounded by its register count. -/
theorem admission_no_autoarm_witness :
    engStep engInit (.admission 3) = some ⟨[3], [], [], [Ev.onConnect 3]⟩ ∧
    (EngState.watchset ⟨[3], [], [], [Ev.onConnect 3]⟩ = engInit.watchset ∧
      EngState.trace ⟨[3], [], [], [Ev.onConnect 3]⟩ = engInit.trace ++ [Ev.onConnect 3] ∧
      3 ∈ EngState.clients ⟨[3], [], [], [Ev.onConnect 3]⟩) ∧
    engRun engInit [.admission 1, .register 1, .notify 1] =
      some ⟨[1], [], [1], [.onConnect 1, .registered 1, .dispatched 1]⟩ ∧
    (EngState.trace ⟨[1], [], [1],
        [.onConnect 1, .registered 1, .dispatched 1]⟩).count (Ev.dispatched 1) ≤
      (EngState.trace ⟨[1], [], [1],
        [.onConnect 1, .registered 1, .dispatched 1]⟩).count (Ev.registered 1) :=
  ⟨by decide,
    admission_no_autoarm.1 engInit 3 ⟨[3], [], [], [Ev.onConnect 3]⟩ (by decide),
    by decide,
    admission_no_autoarm.2 [.admission 1, .register 1, .notify 1]
      ⟨[1], [], [1], [.onConnect 1, .registered 1, .dispatched 1]⟩ 1 (by decide)⟩

end ESocketS
